import Mathlib

/-!
Shallow embedding of the CompliFi compliance program
(`programs/complifi/src/lib.rs`, `state.rs`, `error.rs`).

Wallet public keys are opaque identifiers compared only for equality, so they
are modelled as natural numbers.  The `u64` counters are natural numbers with
the `u64::MAX` bound made explicit where `checked_add` matters; jurisdiction
codes and risk scores are `u8` values modelled as `Nat` (every arithmetic
operation performed on them stays far below `2^8`, so no wrap-around can
occur).  Fallible instruction handlers return the account state at the point
of failure together with an `Except` value; since the on-chain runtime rolls
back all writes on error, returning the pre-error state is exactly the
observable semantics, and it lets us state that no write precedes a failing
check.  A panic coming from `checked_add(1).unwrap()` aborts the instruction;
it is modelled as the dedicated error value `arithmeticOverflow`, distinct
from every `CompliFiError` variant.
-/

deriving instance DecidableEq for Except

namespace CompliFi

/-- Wallet/account public keys: opaque identifiers compared for equality. -/
abbrev Pubkey := Nat

/-- Error enum of `error.rs` (`CompliFiError`). -/
inductive CompliFiError where
  | KycNotVerified
  | RiskScoreTooHigh
  | RestrictedJurisdiction
  | Unauthorized
  | InvalidPolicyParameters
  | AttestationVerificationFailed
  | OracleDataFetchFailed
deriving DecidableEq, Repr

/-- Every way an instruction of this program can fail: a program error raised
via `require!`/`err!`, the Anchor account-validation failure for an
uninitialized `Account` (raised before the handler body runs), or the abort
caused by `.unwrap()` panicking on `checked_add` overflow. -/
inductive ProgramError where
  | program (e : CompliFiError)
  | accountNotInitialized
  | arithmeticOverflow
deriving DecidableEq, Repr

/-- `ComplianceState` account of `state.rs`; both counters are `u64`. -/
structure ComplianceState where
  authority : Pubkey
  verification_count : Nat
  violation_count : Nat
deriving DecidableEq, Repr

/-- `CompliancePolicy` account of `state.rs`; `allowed_jurisdictions` is the
`[u8; 10]` bitmap, modelled as a list of bytes (length 10 in any real
account). -/
structure CompliancePolicy where
  authority : Pubkey
  max_risk_score : Nat
  require_kyc : Bool
  allowed_jurisdictions : List Nat
deriving DecidableEq, Repr

/-- `KycAttestation` account of `state.rs`. -/
structure KycAttestation where
  wallet : Pubkey
  is_verified : Bool
  authority : Pubkey
  timestamp : Int
  jurisdiction : Nat
deriving DecidableEq, Repr

/-- `VerificationEvent` of `state.rs`. -/
structure VerificationEvent where
  user : Pubkey
  action : String
  verified : Bool
  risk_score : Nat
deriving DecidableEq, Repr

/-- `ViolationEvent` of `state.rs`. -/
structure ViolationEvent where
  user : Pubkey
  reason : String
deriving DecidableEq, Repr

/-- Largest value of a `u64`. -/
def U64_MAX : Nat := 2 ^ 64 - 1

/-- Rust's `u64::checked_add`: `none` exactly when the sum exceeds `u64::MAX`. -/
def u64_checked_add (a b : Nat) : Option Nat :=
  if a + b ≤ U64_MAX then some (a + b) else none

/-- `get_wallet_risk_score` of `lib.rs`: the oracle call is stubbed and always
returns `Ok(2)`. -/
def get_wallet_risk_score (_user : Pubkey) : Except ProgramError Nat :=
  .ok 2

/-- Steps 2-4 of `verify_compliance` (`lib.rs` lines 106-126): fetch the risk
score, compare it against the policy threshold, and on success increment
`verification_count` with `checked_add(1).unwrap()` and emit the
`VerificationEvent`.  The risk-score helper is passed as a parameter so that
theorems can quantify over oracle behaviour; the program composes it with the
concrete `get_wallet_risk_score` below. -/
def risk_phase (riskFn : Pubkey → Except ProgramError Nat) (state : ComplianceState)
    (policy : CompliancePolicy) (user : Pubkey) (action : String) :
    ComplianceState × Except ProgramError VerificationEvent :=
  match riskFn user with
  | .error e => (state, .error e)
  | .ok risk_score =>
    if risk_score ≤ policy.max_risk_score then
      match u64_checked_add state.verification_count 1 with
      | some c =>
        ({ state with verification_count := c },
          .ok { user := user, action := action, verified := true, risk_score := risk_score })
      | none => (state, .error .arithmeticOverflow)
    else (state, .error (.program .RiskScoreTooHigh))

/-- Body of the `verify_compliance` handler (`lib.rs` lines 68-127),
parameterized by the risk-score helper it calls.  When `require_kyc` holds it
checks, in order: `attestation.wallet == user`, `attestation.is_verified`,
and the jurisdiction bitmap test with `jurisdiction_idx = jurisdiction / 8`
and `jurisdiction_bit = 1 << (jurisdiction % 8)` guarded by the
`jurisdiction_idx < allowed_jurisdictions.len()` bound; each failing check
returns its error immediately.  It then runs the risk phase. -/
def verify_compliance_with (riskFn : Pubkey → Except ProgramError Nat)
    (state : ComplianceState) (policy : CompliancePolicy) (att : KycAttestation)
    (user : Pubkey) (action : String) :
    ComplianceState × Except ProgramError VerificationEvent :=
  if policy.require_kyc then
    if att.wallet = user then
      if att.is_verified then
        let jurisdiction_idx := att.jurisdiction / 8
        let jurisdiction_bit := 1 <<< (att.jurisdiction % 8)
        if jurisdiction_idx < policy.allowed_jurisdictions.length then
          if policy.allowed_jurisdictions.getD jurisdiction_idx 0 &&& jurisdiction_bit ≠ 0 then
            risk_phase riskFn state policy user action
          else (state, .error (.program .RestrictedJurisdiction))
        else (state, .error (.program .RestrictedJurisdiction))
      else (state, .error (.program .KycNotVerified))
    else (state, .error (.program .KycNotVerified))
  else risk_phase riskFn state policy user action

/-- `verify_compliance` as shipped: the handler body composed with the
stubbed oracle helper. -/
def verify_compliance (state : ComplianceState) (policy : CompliancePolicy)
    (att : KycAttestation) (user : Pubkey) (action : String) :
    ComplianceState × Except ProgramError VerificationEvent :=
  verify_compliance_with get_wallet_risk_score state policy att user action

/-- Anchor account resolution for the `attestation: Account<KycAttestation>`
field of the `VerifyCompliance` accounts struct (`lib.rs` lines 239-243): an
account that does not exist (or holds no initialized `KycAttestation` data)
fails deserialization with Anchor's account-not-initialized error before the
handler body runs. -/
def resolve_att (acc : Option KycAttestation) : Except ProgramError KycAttestation :=
  match acc with
  | some a => .ok a
  | none => .error .accountNotInitialized

/-- The full `verify_compliance` instruction, parameterized by the oracle
helper: Anchor first deserializes the attestation account and checks the
`policy.authority == state.authority` constraint of `VerifyCompliance`
(`lib.rs` lines 229-232), then runs the handler body. -/
def verify_compliance_instr_with (riskFn : Pubkey → Except ProgramError Nat)
    (state : ComplianceState) (policy : CompliancePolicy)
    (acc : Option KycAttestation) (user : Pubkey) (action : String) :
    ComplianceState × Except ProgramError VerificationEvent :=
  match resolve_att acc with
  | .error e => (state, .error e)
  | .ok att =>
    if policy.authority = state.authority then
      verify_compliance_with riskFn state policy att user action
    else (state, .error (.program .Unauthorized))

/-- The shipped `verify_compliance` instruction with the stubbed oracle. -/
def verify_compliance_instr (state : ComplianceState) (policy : CompliancePolicy)
    (acc : Option KycAttestation) (user : Pubkey) (action : String) :
    ComplianceState × Except ProgramError VerificationEvent :=
  verify_compliance_instr_with get_wallet_risk_score state policy acc user action

/-- Body of the `set_policy` handler (`lib.rs` lines 130-149): `require!`
that `max_risk_score <= 10`, then assign the three policy fields (the
`authority` field is not written). -/
def set_policy (policy : CompliancePolicy) (max_risk_score : Nat)
    (require_kyc : Bool) (allowed_jurisdictions : List Nat) :
    CompliancePolicy × Except ProgramError Unit :=
  if max_risk_score ≤ 10 then
    ({ policy with
        max_risk_score := max_risk_score,
        require_kyc := require_kyc,
        allowed_jurisdictions := allowed_jurisdictions }, .ok ())
  else (policy, .error (.program .InvalidPolicyParameters))

/-- The full `set_policy` instruction: the `SetPolicy` accounts struct
(`lib.rs` lines 270-278) checks `policy.authority == authority.key()` and
fails with `Unauthorized` otherwise, then the handler body runs. -/
def set_policy_instr (caller : Pubkey) (policy : CompliancePolicy)
    (max_risk_score : Nat) (require_kyc : Bool) (allowed_jurisdictions : List Nat) :
    CompliancePolicy × Except ProgramError Unit :=
  if policy.authority = caller then
    set_policy policy max_risk_score require_kyc allowed_jurisdictions
  else (policy, .error (.program .Unauthorized))

/-- Body of the `record_violation` handler (`lib.rs` lines 152-167):
increment `violation_count` with `checked_add(1).unwrap()` and emit the
`ViolationEvent`. -/
def record_violation (state : ComplianceState) (user : Pubkey) (reason : String) :
    ComplianceState × Except ProgramError ViolationEvent :=
  match u64_checked_add state.violation_count 1 with
  | some c => ({ state with violation_count := c }, .ok { user := user, reason := reason })
  | none => (state, .error .arithmeticOverflow)

/-- The full `record_violation` instruction: the `RecordViolation` accounts
struct (`lib.rs` lines 280-289) checks `authority.key() == state.authority`
and fails with `Unauthorized` otherwise, then the handler body runs. -/
def record_violation_instr (caller : Pubkey) (state : ComplianceState)
    (user : Pubkey) (reason : String) :
    ComplianceState × Except ProgramError ViolationEvent :=
  if caller = state.authority then record_violation state user reason
  else (state, .error (.program .Unauthorized))

/-- Sample compliance state used by concrete witnesses. -/
def state0 : ComplianceState :=
  { authority := 1, verification_count := 5, violation_count := 2 }

/-- Sample policy with KYC required, threshold 3, and only jurisdiction 1
allowed (bit 1 of byte 0). -/
def policy0 : CompliancePolicy :=
  { authority := 1, max_risk_score := 3, require_kyc := true,
    allowed_jurisdictions := [2, 0, 0, 0, 0, 0, 0, 0, 0, 0] }

/-- Sample verified attestation for wallet 7 in jurisdiction 1. -/
def att0 : KycAttestation :=
  { wallet := 7, is_verified := true, authority := 1, timestamp := 100, jurisdiction := 1 }

/-- Masking with `1 <<< k` is the same as testing bit `k`. -/
theorem and_one_shiftLeft_ne_zero (x k : Nat) :
    (x &&& 1 <<< k ≠ 0) ↔ x.testBit k = true := by
  rw [Nat.one_shiftLeft, Nat.and_two_pow]
  cases h : x.testBit k <;> simp [h, Nat.pow_eq_zero]

/-- Guarded list indexing: `getD` agrees with `getElem` below the length. -/
theorem getD_eq_get_of_lt (l : List Nat) (i : Nat) (h : i < l.length) :
    l.getD i 0 = l[i] := by
  simp [List.getD_eq_getElem?_getD, List.getElem?_eq_getElem h]

/-- Exhaustive case analysis of the risk phase: the oracle error propagates,
a score above the threshold fails with `RiskScoreTooHigh`, a counter at
`u64::MAX` aborts with the overflow error, and otherwise the counter is
incremented by one and the event is emitted; in every failing case the state
component is the input state. -/
theorem risk_phase_elim (riskFn : Pubkey → Except ProgramError Nat)
    (state : ComplianceState) (policy : CompliancePolicy) (user : Pubkey) (action : String) :
    (∃ e, riskFn user = .error e ∧
        risk_phase riskFn state policy user action = (state, .error e)) ∨
    (∃ r, riskFn user = .ok r ∧ policy.max_risk_score < r ∧
        risk_phase riskFn state policy user action =
          (state, .error (.program .RiskScoreTooHigh))) ∨
    (∃ r, riskFn user = .ok r ∧ r ≤ policy.max_risk_score ∧
        U64_MAX ≤ state.verification_count ∧
        risk_phase riskFn state policy user action = (state, .error .arithmeticOverflow)) ∨
    (∃ r, riskFn user = .ok r ∧ r ≤ policy.max_risk_score ∧
        state.verification_count < U64_MAX ∧
        risk_phase riskFn state policy user action =
          ({ state with verification_count := state.verification_count + 1 },
            .ok { user := user, action := action, verified := true, risk_score := r })) := by
  unfold risk_phase u64_checked_add
  cases h : riskFn user with
  | error e => exact Or.inl ⟨e, rfl, rfl⟩
  | ok r =>
    by_cases h1 : r ≤ policy.max_risk_score
    · by_cases h2 : state.verification_count + 1 ≤ U64_MAX
      · exact Or.inr (Or.inr (Or.inr ⟨r, rfl, h1, by omega, by simp [h1, h2]⟩))
      · exact Or.inr (Or.inr (Or.inl ⟨r, rfl, h1, by omega, by simp [h1, h2]⟩))
    · exact Or.inr (Or.inl ⟨r, rfl, by omega, by simp [h1]⟩)

/-- Without KYC, the handler body is exactly the risk phase. -/
theorem verify_with_no_kyc (riskFn : Pubkey → Except ProgramError Nat)
    (state : ComplianceState) (policy : CompliancePolicy) (att : KycAttestation)
    (user : Pubkey) (action : String) (hk : policy.require_kyc = false) :
    verify_compliance_with riskFn state policy att user action =
      risk_phase riskFn state policy user action := by
  unfold verify_compliance_with
  simp [hk]

/-- A wallet mismatch is terminal with `KycNotVerified`. -/
theorem verify_with_wallet_mismatch (riskFn : Pubkey → Except ProgramError Nat)
    (state : ComplianceState) (policy : CompliancePolicy) (att : KycAttestation)
    (user : Pubkey) (action : String) (hk : policy.require_kyc = true)
    (hw : att.wallet ≠ user) :
    verify_compliance_with riskFn state policy att user action =
      (state, .error (.program .KycNotVerified)) := by
  unfold verify_compliance_with
  simp [hk, hw]

/-- An unverified attestation is terminal with `KycNotVerified`, whether or
not the wallet matches. -/
theorem verify_with_not_verified (riskFn : Pubkey → Except ProgramError Nat)
    (state : ComplianceState) (policy : CompliancePolicy) (att : KycAttestation)
    (user : Pubkey) (action : String) (hk : policy.require_kyc = true)
    (hv : att.is_verified = false) :
    verify_compliance_with riskFn state policy att user action =
      (state, .error (.program .KycNotVerified)) := by
  unfold verify_compliance_with
  by_cases hw : att.wallet = user <;> simp [hk, hw, hv]

/-- A failing jurisdiction bitmap test (bit clear, or byte index out of the
bitmap's range) is terminal with `RestrictedJurisdiction`. -/
theorem verify_with_jurisdiction_fail (riskFn : Pubkey → Except ProgramError Nat)
    (state : ComplianceState) (policy : CompliancePolicy) (att : KycAttestation)
    (user : Pubkey) (action : String) (hk : policy.require_kyc = true)
    (hw : att.wallet = user) (hv : att.is_verified = true)
    (hj : ¬ (att.jurisdiction / 8 < policy.allowed_jurisdictions.length ∧
        policy.allowed_jurisdictions.getD (att.jurisdiction / 8) 0 &&&
          1 <<< (att.jurisdiction % 8) ≠ 0)) :
    verify_compliance_with riskFn state policy att user action =
      (state, .error (.program .RestrictedJurisdiction)) := by
  unfold verify_compliance_with
  by_cases hlt : att.jurisdiction / 8 < policy.allowed_jurisdictions.length
  · have hbit : policy.allowed_jurisdictions.getD (att.jurisdiction / 8) 0 &&&
        1 <<< (att.jurisdiction % 8) = 0 := by
      by_contra hne
      exact hj ⟨hlt, hne⟩
    rw [getD_eq_get_of_lt _ _ hlt] at hbit
    simp [hk, hw, hv, hlt, hbit]
  · simp [hk, hw, hv, hlt]

/-- A passing jurisdiction bitmap test hands control to the risk phase. -/
theorem verify_with_jurisdiction_pass (riskFn : Pubkey → Except ProgramError Nat)
    (state : ComplianceState) (policy : CompliancePolicy) (att : KycAttestation)
    (user : Pubkey) (action : String) (hk : policy.require_kyc = true)
    (hw : att.wallet = user) (hv : att.is_verified = true)
    (hlt : att.jurisdiction / 8 < policy.allowed_jurisdictions.length)
    (hbit : policy.allowed_jurisdictions.getD (att.jurisdiction / 8) 0 &&&
        1 <<< (att.jurisdiction % 8) ≠ 0) :
    verify_compliance_with riskFn state policy att user action =
      risk_phase riskFn state policy user action := by
  unfold verify_compliance_with
  rw [getD_eq_get_of_lt _ _ hlt] at hbit
  simp [hk, hw, hv, hlt, hbit]

/-- Exhaustive case analysis of the handler body: either it fails with some
error and returns the input state unchanged, or every check passed and it
returns the state with `verification_count` incremented by one together with
the success event. -/
theorem verify_with_elim (riskFn : Pubkey → Except ProgramError Nat)
    (state : ComplianceState) (policy : CompliancePolicy) (att : KycAttestation)
    (user : Pubkey) (action : String) :
    (∃ e, verify_compliance_with riskFn state policy att user action = (state, .error e)) ∨
    (∃ r, riskFn user = .ok r ∧ r ≤ policy.max_risk_score ∧
        state.verification_count < U64_MAX ∧
        verify_compliance_with riskFn state policy att user action =
          ({ state with verification_count := state.verification_count + 1 },
            .ok { user := user, action := action, verified := true, risk_score := r })) := by
  have hrp := risk_phase_elim riskFn state policy user action
  by_cases hk : policy.require_kyc
  · by_cases hw : att.wallet = user
    · by_cases hv : att.is_verified
      · by_cases hj : att.jurisdiction / 8 < policy.allowed_jurisdictions.length ∧
            policy.allowed_jurisdictions.getD (att.jurisdiction / 8) 0 &&&
              1 <<< (att.jurisdiction % 8) ≠ 0
        · rw [verify_with_jurisdiction_pass riskFn state policy att user action hk hw hv hj.1 hj.2]
          rcases hrp with ⟨e, _, h⟩ | ⟨r, _, _, h⟩ | ⟨r, _, _, _, h⟩ | ⟨r, h1, h2, h3, h⟩
          · exact Or.inl ⟨e, h⟩
          · exact Or.inl ⟨_, h⟩
          · exact Or.inl ⟨_, h⟩
          · exact Or.inr ⟨r, h1, h2, h3, h⟩
        · exact Or.inl ⟨_, verify_with_jurisdiction_fail riskFn state policy att user action hk hw hv hj⟩
      · exact Or.inl ⟨_, verify_with_not_verified riskFn state policy att user action hk (by simpa using hv)⟩
    · exact Or.inl ⟨_, verify_with_wallet_mismatch riskFn state policy att user action hk hw⟩
  · rw [verify_with_no_kyc riskFn state policy att user action (by simpa using hk)]
    rcases hrp with ⟨e, _, h⟩ | ⟨r, _, _, h⟩ | ⟨r, _, _, _, h⟩ | ⟨r, h1, h2, h3, h⟩
    · exact Or.inl ⟨e, h⟩
    · exact Or.inl ⟨_, h⟩
    · exact Or.inl ⟨_, h⟩
    · exact Or.inr ⟨r, h1, h2, h3, h⟩

/-- Successfully verified output state and event for the C1 witness run. -/
def sOut : ComplianceState :=
  { authority := 1, verification_count := 6, violation_count := 2 }

/-- Event emitted by the C1 witness run. -/
def evOut : VerificationEvent :=
  { user := 7, action := "swap", verified := true, risk_score := 2 }

/-- C1: for every call to `verify_compliance` (over any oracle behaviour),
the Compliance State counters are mutated only on full success: a call that
fails at any check returns the state exactly as it was, and a successful call
returns the state with `verification_count` increased by exactly 1 and
`violation_count` (and the authority) untouched. -/
theorem verify_compliance_counters_only_on_success
    (riskFn : Pubkey → Except ProgramError Nat) (state : ComplianceState)
    (policy : CompliancePolicy) (acc : Option KycAttestation)
    (user : Pubkey) (action : String) :
    (∀ s' e, verify_compliance_instr_with riskFn state policy acc user action = (s', .error e) →
      s' = state) ∧
    (∀ s' ev, verify_compliance_instr_with riskFn state policy acc user action = (s', .ok ev) →
      s'.verification_count = state.verification_count + 1 ∧
      s'.violation_count = state.violation_count ∧
      s'.authority = state.authority) := by
  unfold verify_compliance_instr_with resolve_att
  cases acc with
  | none =>
    constructor
    · intro s' e h
      injection h with h1 h2
      exact h1.symm
    · intro s' ev h
      injection h with h1 h2
      cases h2
  | some att =>
    by_cases hpa : policy.authority = state.authority
    · simp only [hpa, if_true]
      rcases verify_with_elim riskFn state policy att user action with
        ⟨e, heq⟩ | ⟨r, _, _, _, heq⟩
      · rw [heq]
        constructor
        · intro s' e2 h
          injection h with h1 h2
          exact h1.symm
        · intro s' ev h
          injection h with h1 h2
          cases h2
      · rw [heq]
        constructor
        · intro s' e2 h
          injection h with h1 h2
          cases h2
        · intro s' ev h
          injection h with h1 h2
          rw [← h1]
          exact ⟨rfl, rfl, rfl⟩
    · simp only [hpa, if_false]
      constructor
      · intro s' e h
        injection h with h1 h2
        exact h1.symm
      · intro s' ev h
        injection h with h1 h2
        cases h2

/-- Witness for C1: a concrete successful run increments
`verification_count` from 5 to 6 and leaves `violation_count` at 2. -/
theorem verify_compliance_counters_only_on_success_witness :
    sOut.verification_count = state0.verification_count + 1 ∧
    sOut.violation_count = state0.violation_count := by
  have h := (verify_compliance_counters_only_on_success get_wallet_risk_score state0 policy0
      (some att0) 7 "swap").2 sOut evOut (by decide)
  exact ⟨h.1, h.2.1⟩

/-- C2: with `require_kyc` true the handler checks, in a fixed
short-circuiting order, the attestation wallet, the `is_verified` flag, the
jurisdiction bitmap, and then the risk score, each failure being terminal
with its designated error; in particular an unverified attestation always
fails with `KycNotVerified`, regardless of jurisdiction or oracle result. -/
theorem verify_compliance_check_order
    (riskFn : Pubkey → Except ProgramError Nat) (state : ComplianceState)
    (policy : CompliancePolicy) (att : KycAttestation) (user : Pubkey) (action : String)
    (hk : policy.require_kyc = true) :
    (att.wallet ≠ user →
      verify_compliance_with riskFn state policy att user action =
        (state, .error (.program .KycNotVerified))) ∧
    (att.is_verified = false →
      verify_compliance_with riskFn state policy att user action =
        (state, .error (.program .KycNotVerified))) ∧
    (att.wallet = user → att.is_verified = true →
      ¬ (att.jurisdiction / 8 < policy.allowed_jurisdictions.length ∧
          policy.allowed_jurisdictions.getD (att.jurisdiction / 8) 0 &&&
            1 <<< (att.jurisdiction % 8) ≠ 0) →
      verify_compliance_with riskFn state policy att user action =
        (state, .error (.program .RestrictedJurisdiction))) ∧
    (att.wallet = user → att.is_verified = true →
      att.jurisdiction / 8 < policy.allowed_jurisdictions.length →
      policy.allowed_jurisdictions.getD (att.jurisdiction / 8) 0 &&&
        1 <<< (att.jurisdiction % 8) ≠ 0 →
      verify_compliance_with riskFn state policy att user action =
        risk_phase riskFn state policy user action) ∧
    (∀ e, riskFn user = .error e →
      risk_phase riskFn state policy user action = (state, .error e)) ∧
    (∀ r, riskFn user = .ok r → policy.max_risk_score < r →
      risk_phase riskFn state policy user action =
        (state, .error (.program .RiskScoreTooHigh))) := by
  refine ⟨fun hw => verify_with_wallet_mismatch riskFn state policy att user action hk hw,
    fun hv => verify_with_not_verified riskFn state policy att user action hk hv,
    fun hw hv hj => verify_with_jurisdiction_fail riskFn state policy att user action hk hw hv hj,
    fun hw hv hlt hbit =>
      verify_with_jurisdiction_pass riskFn state policy att user action hk hw hv hlt hbit,
    ?_, ?_⟩
  · intro e he
    unfold risk_phase
    rw [he]
  · intro r hok hgt
    unfold risk_phase
    rw [hok]
    simp [Nat.not_le.mpr hgt]

/-- Unverified attestation used by the C2 witness. -/
def attU : KycAttestation := { att0 with is_verified := false }

/-- Witness for C2: a concrete unverified attestation fails with
`KycNotVerified` and leaves the state unchanged. -/
theorem verify_compliance_check_order_witness :
    verify_compliance_with get_wallet_risk_score state0 policy0 attU 7 "swap" =
      (state0, .error (.program .KycNotVerified)) :=
  (verify_compliance_check_order get_wallet_risk_score state0 policy0 attU 7 "swap" rfl).2.1 rfl

/-- C3: the jurisdiction check computes `byte_index = j / 8` and
`bit_mask = 1 << (j % 8)`; every code `j >= 80` fails with
`RestrictedJurisdiction`, and for `j < 80` the check passes (evaluation
continues into the risk phase) exactly when bit `j % 8` of byte `j / 8` of
the 10-byte allow-bitmap is set, failing with `RestrictedJurisdiction` when
that bit is clear. -/
theorem jurisdiction_bitmap_semantics
    (riskFn : Pubkey → Except ProgramError Nat) (state : ComplianceState)
    (policy : CompliancePolicy) (att : KycAttestation) (user : Pubkey) (action : String)
    (hk : policy.require_kyc = true) (hw : att.wallet = user) (hv : att.is_verified = true)
    (hlen : policy.allowed_jurisdictions.length = 10) :
    (80 ≤ att.jurisdiction →
      verify_compliance_with riskFn state policy att user action =
        (state, .error (.program .RestrictedJurisdiction))) ∧
    (att.jurisdiction < 80 →
      ((policy.allowed_jurisdictions.getD (att.jurisdiction / 8) 0).testBit
          (att.jurisdiction % 8) = true →
        verify_compliance_with riskFn state policy att user action =
          risk_phase riskFn state policy user action) ∧
      ((policy.allowed_jurisdictions.getD (att.jurisdiction / 8) 0).testBit
          (att.jurisdiction % 8) = false →
        verify_compliance_with riskFn state policy att user action =
          (state, .error (.program .RestrictedJurisdiction)))) := by
  constructor
  · intro h80
    apply verify_with_jurisdiction_fail riskFn state policy att user action hk hw hv
    rintro ⟨hlt, -⟩
    rw [hlen] at hlt
    omega
  · intro h80
    have hlt : att.jurisdiction / 8 < policy.allowed_jurisdictions.length := by
      rw [hlen]
      omega
    constructor
    · intro hbit
      exact verify_with_jurisdiction_pass riskFn state policy att user action hk hw hv hlt
        ((and_one_shiftLeft_ne_zero _ _).mpr hbit)
    · intro hbit
      apply verify_with_jurisdiction_fail riskFn state policy att user action hk hw hv
      rintro ⟨-, hne⟩
      rw [and_one_shiftLeft_ne_zero] at hne
      rw [hbit] at hne
      cases hne

/-- Attestation from the out-of-range jurisdiction code 200, for the C3
witness. -/
def attFar : KycAttestation := { att0 with jurisdiction := 200 }

/-- Witness for C3: jurisdiction code 200 (≥ 80) fails with
`RestrictedJurisdiction` against the sample policy. -/
theorem jurisdiction_bitmap_semantics_witness :
    verify_compliance_with get_wallet_risk_score state0 policy0 attFar 7 "swap" =
      (state0, .error (.program .RestrictedJurisdiction)) :=
  (jurisdiction_bitmap_semantics get_wallet_risk_score state0 policy0 attFar 7 "swap"
    rfl rfl rfl rfl).1 (by decide)

/-- C4: for every oracle-returned risk score `r`, the risk check fails with
`RiskScoreTooHigh` exactly when `r` exceeds `max_risk_score`; the boundary
case `r = max_risk_score` succeeds (the threshold is inclusive). -/
theorem risk_threshold_inclusive
    (riskFn : Pubkey → Except ProgramError Nat) (state : ComplianceState)
    (policy : CompliancePolicy) (att : KycAttestation) (user : Pubkey) (action : String)
    (r : Nat) (hk : policy.require_kyc = false) (hr : riskFn user = .ok r) :
    ((verify_compliance_with riskFn state policy att user action).2 =
        .error (.program .RiskScoreTooHigh) ↔ policy.max_risk_score < r) ∧
    (r = policy.max_risk_score → state.verification_count < U64_MAX →
      ∃ ev, verify_compliance_with riskFn state policy att user action =
          ({ state with verification_count := state.verification_count + 1 }, .ok ev) ∧
        ev.risk_score = r) := by
  rw [verify_with_no_kyc riskFn state policy att user action hk]
  have hel := risk_phase_elim riskFn state policy user action
  constructor
  · constructor
    · intro h
      rcases hel with ⟨e, he, heq⟩ | ⟨r2, he, hgt, heq⟩ | ⟨r2, he, hle, hge, heq⟩ |
        ⟨r2, he, hle, hlt2, heq⟩
      · rw [hr] at he
        cases he
      · rw [hr] at he
        injection he with hrr
        omega
      · rw [heq] at h
        simp at h
      · rw [heq] at h
        simp at h
    · intro hgt
      rcases hel with ⟨e, he, heq⟩ | ⟨r2, he, hgt2, heq⟩ | ⟨r2, he, hle, hge, heq⟩ |
        ⟨r2, he, hle, hlt2, heq⟩
      · rw [hr] at he
        cases he
      · rw [heq]
      · rw [hr] at he
        injection he with hrr
        omega
      · rw [hr] at he
        injection he with hrr
        omega
  · intro heq2 hlt
    rcases hel with ⟨e, he, heq⟩ | ⟨r2, he, hgt, heq⟩ | ⟨r2, he, hle, hge, heq⟩ |
      ⟨r2, he, hle, hlt2, heq⟩
    · rw [hr] at he
      cases he
    · rw [hr] at he
      injection he with hrr
      omega
    · omega
    · rw [hr] at he
      injection he with hrr
      subst hrr
      exact ⟨_, heq, rfl⟩

/-- Policy with threshold 2, KYC off: the boundary policy for the C4
witness (the stub oracle reports exactly 2). -/
def policyM2 : CompliancePolicy :=
  { authority := 1, max_risk_score := 2, require_kyc := false,
    allowed_jurisdictions := [2, 0, 0, 0, 0, 0, 0, 0, 0, 0] }

/-- Witness for C4: with the stub score 2 equal to the threshold 2, the
boundary evaluation succeeds and increments the counter. -/
theorem risk_threshold_inclusive_witness :
    ∃ ev, verify_compliance_with get_wallet_risk_score state0 policyM2 att0 9 "swap" =
        ({ state0 with verification_count := state0.verification_count + 1 }, .ok ev) ∧
      ev.risk_score = 2 :=
  (risk_threshold_inclusive get_wallet_risk_score state0 policyM2 att0 9 "swap" 2
    rfl rfl).2 rfl (by decide)

/-- C5 counterexample: with KYC required and no attestation account supplied
for the evaluated wallet, the instruction fails with Anchor's
account-not-initialized validation error, which is not `KycNotVerified`
(the claim names the wrong error kind for the missing-record case). -/
theorem kyc_missing_error_counterexample :
    verify_compliance_instr state0 policy0 none 7 "swap" =
      (state0, .error .accountNotInitialized) ∧
    (ProgramError.accountNotInitialized ≠ .program .KycNotVerified) :=
  ⟨by decide, by decide⟩

/-- C5 (amended): with `require_kyc` true, a missing attestation record makes
the call fail during account validation (before the handler body runs) with
the account-not-initialized error, leaving the state untouched; an
attestation whose `wallet` field differs from the evaluated user fails with
`KycNotVerified`, also leaving the state untouched. -/
theorem kyc_missing_or_mismatch
    (state : ComplianceState) (policy : CompliancePolicy) (att : KycAttestation)
    (user : Pubkey) (action : String)
    (hk : policy.require_kyc = true) (hauth : policy.authority = state.authority) :
    verify_compliance_instr state policy none user action =
      (state, .error .accountNotInitialized) ∧
    (att.wallet ≠ user →
      verify_compliance_instr state policy (some att) user action =
        (state, .error (.program .KycNotVerified))) := by
  constructor
  · rfl
  · intro hw
    unfold verify_compliance_instr verify_compliance_instr_with resolve_att
    simp only [hauth, if_true]
    exact verify_with_wallet_mismatch get_wallet_risk_score state policy att user action hk hw

/-- Attestation recorded for wallet 8, used to evaluate wallet 7 in the C5
witness. -/
def attW : KycAttestation := { att0 with wallet := 8 }

/-- Witness for C5 (amended): a concrete wrong-wallet attestation fails with
`KycNotVerified` and leaves the state unchanged. -/
theorem kyc_missing_or_mismatch_witness :
    verify_compliance_instr state0 policy0 (some attW) 7 "swap" =
      (state0, .error (.program .KycNotVerified)) :=
  (kyc_missing_or_mismatch state0 policy0 attW 7 "swap" rfl rfl).2 (by decide)

/-- C6: `set_policy` rejects `new_max_risk_score > 10` with
`InvalidPolicyParameters` and leaves the policy record unchanged; a call by
the owning authority with `new_max_risk_score <= 10` replaces all three
fields (`max_risk_score`, `require_kyc`, `allowed_jurisdictions`) together,
with no incomplete update. -/
theorem set_policy_validation
    (policy : CompliancePolicy) (caller : Pubkey) (m : Nat) (k : Bool) (aj : List Nat) :
    (10 < m →
      set_policy policy m k aj = (policy, .error (.program .InvalidPolicyParameters))) ∧
    (m ≤ 10 → policy.authority = caller →
      set_policy_instr caller policy m k aj =
        ({ authority := policy.authority, max_risk_score := m, require_kyc := k,
            allowed_jurisdictions := aj }, .ok ())) := by
  constructor
  · intro hgt
    unfold set_policy
    simp [Nat.not_le.mpr hgt]
  · intro hle hauth
    unfold set_policy_instr set_policy
    simp [hauth, hle]

/-- Witness for C6: `max_risk_score = 11` is rejected with
`InvalidPolicyParameters` and the sample policy record is returned intact. -/
theorem set_policy_validation_witness :
    set_policy policy0 11 true [2, 0, 0, 0, 0, 0, 0, 0, 0, 0] =
      (policy0, .error (.program .InvalidPolicyParameters)) :=
  (set_policy_validation policy0 1 11 true [2, 0, 0, 0, 0, 0, 0, 0, 0, 0]).1 (by decide)

/-- C7: `record_violation` called by anyone other than the Compliance State
authority fails with `Unauthorized` and leaves `violation_count` unchanged;
called by the authority (below the counter bound) it increments
`violation_count` by exactly 1 and emits the `{wallet, reason}` violation
event. -/
theorem record_violation_auth
    (state : ComplianceState) (caller user : Pubkey) (reason : String) :
    (caller ≠ state.authority →
      record_violation_instr caller state user reason =
        (state, .error (.program .Unauthorized))) ∧
    (caller = state.authority → state.violation_count < U64_MAX →
      record_violation_instr caller state user reason =
        ({ state with violation_count := state.violation_count + 1 },
          .ok { user := user, reason := reason })) := by
  constructor
  · intro hne
    unfold record_violation_instr
    simp [hne]
  · intro heq hlt
    unfold record_violation_instr record_violation u64_checked_add
    have h2 : state.violation_count + 1 ≤ U64_MAX := by omega
    simp [heq, h2]

/-- Witness for C7: the authority records a violation, incrementing the
counter from 2 to 3 with the event emitted. -/
theorem record_violation_auth_witness :
    record_violation_instr 1 state0 9 "wash-trading" =
      ({ state0 with violation_count := state0.violation_count + 1 },
        .ok { user := 9, reason := "wash-trading" }) :=
  (record_violation_auth state0 1 9 "wash-trading").2 rfl (by decide)

/-- C8: at `u64::MAX` the incrementing call aborts with the distinct
arithmetic-overflow error (the panic of `checked_add(1).unwrap()`) instead of
wrapping: the returned state still carries the old counter values and the
error is not any `CompliFiError`. -/
theorem counters_never_wrap
    (riskFn : Pubkey → Except ProgramError Nat) (state : ComplianceState)
    (policy : CompliancePolicy) (att : KycAttestation) (caller user : Pubkey)
    (action reason : String) (r : Nat)
    (hcv : state.verification_count = U64_MAX)
    (hvv : state.violation_count = U64_MAX)
    (hk : policy.require_kyc = false) (hr : riskFn user = .ok r)
    (hrs : r ≤ policy.max_risk_score) (hca : caller = state.authority) :
    verify_compliance_with riskFn state policy att user action =
      (state, .error .arithmeticOverflow) ∧
    record_violation_instr caller state user reason =
      (state, .error .arithmeticOverflow) ∧
    (∀ e : CompliFiError, (ProgramError.arithmeticOverflow : ProgramError) ≠ .program e) := by
  refine ⟨?_, ?_, ?_⟩
  · rw [verify_with_no_kyc riskFn state policy att user action hk]
    unfold risk_phase u64_checked_add
    rw [hr]
    have hno : ¬ (state.verification_count + 1 ≤ U64_MAX) := by omega
    simp [hrs, hno]
  · unfold record_violation_instr record_violation u64_checked_add
    have hno : ¬ (state.violation_count + 1 ≤ U64_MAX) := by omega
    simp [hca, hno]
  · intro e hc
    cases hc

/-- State with both counters saturated at `u64::MAX`, for the C8 witness. -/
def stateMax : ComplianceState :=
  { authority := 1, verification_count := U64_MAX, violation_count := U64_MAX }

/-- Witness for C8: with both counters at `u64::MAX`, a passing verification
and an authorized violation report both abort with the overflow error and the
counters stay at `u64::MAX`. -/
theorem counters_never_wrap_witness :
    verify_compliance_with get_wallet_risk_score stateMax policyM2 att0 7 "swap" =
      (stateMax, .error .arithmeticOverflow) ∧
    record_violation_instr 1 stateMax 7 "over" = (stateMax, .error .arithmeticOverflow) :=
  have h := counters_never_wrap get_wallet_risk_score stateMax policyM2 att0 1 7 "swap" "over" 2
    rfl rfl rfl rfl (by decide) rfl
  ⟨h.1, h.2.1⟩

/-- C9: `set_policy` never writes the policy's `authority` field: whatever
the outcome, the returned record keeps the caller-independent authority. -/
theorem set_policy_preserves_authority
    (policy : CompliancePolicy) (m : Nat) (k : Bool) (aj : List Nat) :
    (set_policy policy m k aj).1.authority = policy.authority := by
  unfold set_policy
  by_cases h : m ≤ 10 <;> simp [h]

/-- C10: the risk-score helper is a stub returning `Ok(2)` for every wallet;
hence with `require_kyc` false the shipped `verify_compliance` succeeds
exactly when `max_risk_score >= 2`, and every emitted `VerificationEvent`
carries `risk_score = 2` and `verified = true`. -/
theorem risk_stub_consequences
    (state : ComplianceState) (policy : CompliancePolicy) (att : KycAttestation)
    (user : Pubkey) (action : String)
    (hk : policy.require_kyc = false) (hcv : state.verification_count < U64_MAX) :
    (∀ u : Pubkey, get_wallet_risk_score u = .ok 2) ∧
    ((∃ s' ev, verify_compliance state policy att user action = (s', .ok ev)) ↔
      2 ≤ policy.max_risk_score) ∧
    (∀ (s2 : ComplianceState) (p2 : CompliancePolicy) (a2 : KycAttestation) (u2 : Pubkey)
        (ac2 : String) (s' : ComplianceState) (ev : VerificationEvent),
      verify_compliance s2 p2 a2 u2 ac2 = (s', .ok ev) →
      ev.risk_score = 2 ∧ ev.verified = true) := by
  refine ⟨fun u => rfl, ?_, ?_⟩
  · unfold verify_compliance
    rw [verify_with_no_kyc get_wallet_risk_score state policy att user action hk]
    have hel := risk_phase_elim get_wallet_risk_score state policy user action
    have hstub : get_wallet_risk_score user = .ok 2 := rfl
    constructor
    · rintro ⟨s', ev, hq⟩
      rcases hel with ⟨e, he, heq⟩ | ⟨r2, he, hgt, heq⟩ | ⟨r2, he, hle, hge, heq⟩ |
        ⟨r2, he, hle, hlt2, heq⟩
      · rw [hstub] at he
        cases he
      · rw [heq] at hq
        injection hq with h1 h2
        cases h2
      · exfalso
        omega
      · rw [hstub] at he
        injection he with h2
        omega
    · intro hmax
      rcases hel with ⟨e, he, heq⟩ | ⟨r2, he, hgt, heq⟩ | ⟨r2, he, hle, hge, heq⟩ |
        ⟨r2, he, hle, hlt2, heq⟩
      · rw [hstub] at he
        cases he
      · rw [hstub] at he
        injection he with h2
        exfalso
        omega
      · exfalso
        omega
      · exact ⟨_, _, heq⟩
  · intro s2 p2 a2 u2 ac2 s' ev hq
    unfold verify_compliance at hq
    rcases verify_with_elim get_wallet_risk_score s2 p2 a2 u2 ac2 with ⟨e, heq⟩ |
      ⟨r2, he, hle2, hlt3, heq⟩
    · rw [heq] at hq
      injection hq with h1 h2
      cases h2
    · rw [heq] at hq
      injection hq with h1 h2
      injection h2 with h3
      have hr2 : (2 : Nat) = r2 := by
        have hok : (Except.ok 2 : Except ProgramError Nat) = .ok r2 := he
        injection hok
      rw [← h3, ← hr2]
      exact ⟨rfl, rfl⟩

/-- Witness for C10: with `max_risk_score = 2` equal to the stub score, a
KYC-free evaluation succeeds. -/
theorem risk_stub_consequences_witness :
    ∃ s' ev, verify_compliance state0 policyM2 att0 9 "swap" = (s', .ok ev) :=
  ((risk_stub_consequences state0 policyM2 att0 9 "swap" rfl (by decide)).2.1).mpr (by decide)

end CompliFi
